import Mathlib

set_option maxRecDepth 8000

/-!
Verification of the NFC tag provisioning tool (`src/main.py`).

The Python source is shallowly embedded below: byte buffers (`bytearray`)
become `List Nat` (entries kept below 256 by the write primitive, mirroring
`bytearray` item assignment), strings become `String`, exceptions become
`Option`/`Bool` failure results, wall-clock times become integer
milliseconds, and
the two polling loops become fuel-indexed recursions where one unit of fuel
is one 100 ms poll interval.
-/

namespace NFC

/-! ## Hex primitives (BlockEncoder layer) -/

/-- Value of one hexadecimal digit, as accepted by Python's `int(_, 16)`:
`0`-`9`, `a`-`f`, `A`-`F`.  Characters outside those ranges are never fed to
this function by the definitions below (they are rejected by `isHexDigit`). -/
def hexVal (c : Char) : Nat :=
  if 48 ≤ c.toNat ∧ c.toNat ≤ 57 then c.toNat - 48
  else if 97 ≤ c.toNat ∧ c.toNat ≤ 102 then c.toNat - 87
  else c.toNat - 55

/-- Whether `c` is a hexadecimal digit (`0`-`9`, `a`-`f`, `A`-`F`). -/
def isHexDigit (c : Char) : Bool :=
  (48 ≤ c.toNat && c.toNat ≤ 57) || (97 ≤ c.toNat && c.toNat ≤ 102)
    || (65 ≤ c.toNat && c.toNat ≤ 70)

/-- Whether `c` is a digit or an uppercase hex letter — the alphabet the
codebase's own uppercase hex rendering produces. -/
def isUpperHex (c : Char) : Bool :=
  (48 ≤ c.toNat && c.toNat ≤ 57) || (65 ≤ c.toNat && c.toNat ≤ 70)

/-- Decode one two-character slice, modelling Python `int(pair, 16)` for a
pair of plain hex digits.  (Python's `int` additionally tolerates
sign/whitespace characters inside the slice; no definition or theorem below
is settled at such an input, so those are treated as invalid here.) -/
def pairDecode (c1 c2 : Char) : Option Nat :=
  if isHexDigit c1 && isHexDigit c2 then some (hexVal c1 * 16 + hexVal c2)
  else none

/-- Decode a character list two characters at a time, left to right
(`int(hex_str[i*2:i*2+2], 16)` for successive `i`). -/
def decodePairs : List Char → Option (List Nat)
  | [] => some []
  | c1 :: c2 :: rest =>
    match pairDecode c1 c2, decodePairs rest with
    | some b, some bs => some (b :: bs)
    | _, _ => none
  | [_] => none

/-- One `bytearray` item assignment `buffer[i] = v`: fails (IndexError /
ValueError) when the index is out of range or the value is not a byte. -/
def byteSet (buf : List Nat) (i v : Nat) : Option (List Nat) :=
  if i < buf.length ∧ v < 256 then some (buf.set i v) else none

/-- The loop body of `write_hex_to_pos` (src/main.py:73-75): decode the next
two characters and store the byte, advancing the position; on a decoding or
assignment error the buffer mutated so far is returned with `false`
(modelling the Python exception escaping mid-loop, the in-place `bytearray`
mutations already performed being kept). -/
def pairsWrite : List Nat → Nat → List Char → List Nat × Bool
  | buf, _, [] => (buf, true)
  | buf, pos, c1 :: c2 :: rest =>
    match pairDecode c1 c2 with
    | none => (buf, false)
    | some v =>
      match byteSet buf pos v with
      | none => (buf, false)
      | some buf2 => pairsWrite buf2 (pos + 1) rest
  | buf, _, [_] => (buf, false)

/-- `write_hex_to_pos` (src/main.py:64-75).  Checks `len(hex_str) != 32`
first and raises without touching the buffer; otherwise runs the 16-step
write loop over successive two-character slices.  The returned pair is the
buffer after the call together with a success flag (`false` = the Python
code raised). -/
def write_hex_to_pos (buffer : List Nat) (hex_str : String) (position : Nat) :
    List Nat × Bool :=
  if hex_str.length ≠ 32 then (buffer, false)
  else pairsWrite buffer position hex_str.data

/-- Uppercase hexadecimal digit for a value below 16 (the digits produced by
Python's `hex(..)[2:]... .upper()` pipeline). -/
def hexDigUp : Nat → Char
  | 0 => '0' | 1 => '1' | 2 => '2' | 3 => '3' | 4 => '4'
  | 5 => '5' | 6 => '6' | 7 => '7' | 8 => '8' | 9 => '9'
  | 10 => 'A' | 11 => 'B' | 12 => 'C' | 13 => 'D' | 14 => 'E'
  | 15 => 'F' | _ => '0'

/-- Fuel-indexed digit recursion for `natHexUp`; `fuel ≥ n` always suffices,
and the fuel-0 fallback coincides with the `n < 16` base case, so the value
is independent of any fuel of at least `n` (`natHexUpGo_eq` below). -/
def natHexUpGo : Nat → Nat → List Char
  | 0, n => [hexDigUp n]
  | fuel + 1, n =>
    if n < 16 then [hexDigUp n]
    else natHexUpGo fuel (n / 16) ++ [hexDigUp (n % 16)]

/-- Big-endian uppercase hex digits of `n` with no leading zeros, one digit
for `n = 0`: the characters of Python `hex(n)[2:].upper()`. -/
def natHexUp (n : Nat) : List Char :=
  natHexUpGo n n

/-- Python `str.zfill(2)`: left-pad with `'0'` to length at least 2. -/
def zfill2 (l : List Char) : List Char :=
  List.replicate (2 - l.length) '0' ++ l

/-- `hex(n)[2:].zfill(2).upper()` — the per-byte rendering used throughout
src/main.py (lines 39 and 54). -/
def byteHexChars (n : Nat) : List Char :=
  zfill2 (natHexUp n)

/-- The codebase's hex rendering of a byte list: each byte as two uppercase
hex digits (for bytes below 256), concatenated in order. -/
def encodeHexUpper (ds : List Nat) : List Char :=
  ds.flatMap byteHexChars

/-- Fuel-indexed digit recursion for `natDecChars`, like `natHexUpGo`. -/
def natDecGo : Nat → Nat → List Char
  | 0, n => [hexDigUp n]
  | fuel + 1, n =>
    if n < 10 then [hexDigUp n]
    else natDecGo fuel (n / 10) ++ [hexDigUp (n % 10)]

/-- Big-endian decimal digit characters of `n` (Python `str(n)` for a
nonnegative integer). -/
def natDecChars (n : Nat) : List Char :=
  natDecGo n n

/-- `generate_random_suffix` (src/main.py:41-46): renders the drawn integer
in decimal.  The draw `random.randint(100000, 999999)` is modelled by the
parameter `r`; theorems constrain it to that interval. -/
def generate_random_suffix (r : Nat) : String :=
  ⟨natDecChars r⟩

/-- `generate_sector2_block3` (src/main.py:26-39) with its `None` defaults
already resolved by the caller: `date` is the given date or today's
`YYYYMMDD` string, `suffix` the given suffix or a freshly drawn
`generate_random_suffix`.  Concatenates `date ++ "BB" ++ suffix` and renders
each character's code point via `hex(ord(c))[2:].zfill(2).upper()`. -/
def generate_sector2_block3 (date suffix : String) : String :=
  ⟨(date ++ "BB" ++ suffix).data.flatMap (fun c => byteHexChars c.toNat)⟩

/-- `generate_random_hex` (src/main.py:48-55): `bytes_length` independent
draws of `random.randint(0, 255)`, modelled by `rand 0 .. rand
(bytes_length - 1)`, each rendered as two hex characters. -/
def generate_random_hex (rand : Nat → Nat) (bytes_length : Nat) : String :=
  ⟨(List.range bytes_length).flatMap (fun i => byteHexChars (rand i))⟩

/-- `generate_random_block_data` (src/main.py:57-62). -/
def generate_random_block_data (rand : Nat → Nat) : String :=
  generate_random_hex rand 16

/-- A `write_hex_to_pos` call inside `generate_binary_mfd`: the mutated
buffer when the call succeeds, `none` when it raises (the exception
propagates out of `generate_binary_mfd`, whose local buffer is discarded). -/
def writeHexE (buf : List Nat) (s : String) (pos : Nat) : Option (List Nat) :=
  match write_hex_to_pos buf s pos with
  | (b, true) => some b
  | (_, false) => none

/-- Body of the sectors-3-to-15 loop of `generate_binary_mfd`
(src/main.py:117-125): three zero blocks then the open trailer block. -/
def fill_sector (buf : List Nat) (sector : Nat) : Option (List Nat) :=
  ((List.range 3).foldlM
      (fun b block => writeHexE b "00000000000000000000000000000000"
        (sector * 64 + block * 16)) buf).bind
    (fun b => writeHexE b "FFFFFFFFFFFFFF078069FFFFFFFFFFFF" (sector * 64 + 48))

/-- `generate_binary_mfd` (src/main.py:77-127) after its three optional
arguments have been resolved to concrete 32-character strings: the sequence
of `write_hex_to_pos` calls on a fresh 1024-byte buffer, in source order. -/
def generate_binary_mfd_resolved (sector0_block1 sector0_block2 sector2_block3 : String) :
    Option (List Nat) :=
  (writeHexE (List.replicate 1024 0) "11EEE82A3D080400047AC493FC85B798" 0).bind fun b =>
  (writeHexE b sector0_block1 16).bind fun b =>
  (writeHexE b sector0_block2 32).bind fun b =>
  (writeHexE b "702A2630344B07878F692857385F6829" 48).bind fun b =>
  (writeHexE b "1644FCA83EDE58D64683C53899F40AE4" 64).bind fun b =>
  (writeHexE b "D10560C1F76AC151BF0732E6760052A4" 80).bind fun b =>
  (writeHexE b "D10560C1F76AC151BF0732E6760052A4" 96).bind fun b =>
  (writeHexE b "702A2630344B61E789692857385F6829" 112).bind fun b =>
  (writeHexE b "D10560C1F76AC151BF0732E6760052A4" 128).bind fun b =>
  (writeHexE b "D10560C1F76AC151BF0732E6760052A4" 144).bind fun b =>
  (writeHexE b sector2_block3 160).bind fun b =>
  (writeHexE b "702A2630344B34B78C692857385F6829" 176).bind fun b =>
  (List.range' 3 13).foldlM fill_sector b

/-- `generate_binary_mfd` with its optional-argument defaulting
(src/main.py:91-96): an omitted block falls back to fresh random data
(`rand1`/`rand2` model the byte draws) or to `generate_sector2_block3`
evaluated at today's date `dateNow` and a drawn suffix `randSuffix`. -/
def generate_binary_mfd (rand1 rand2 : Nat → Nat) (dateNow : String) (randSuffix : Nat)
    (sector0_block1 sector0_block2 sector2_block3 : Option String) :
    Option (List Nat) :=
  generate_binary_mfd_resolved
    (sector0_block1.getD (generate_random_block_data rand1))
    (sector0_block2.getD (generate_random_block_data rand2))
    (sector2_block3.getD
      (generate_sector2_block3 dateNow (generate_random_suffix randSuffix)))

/-- Total variant of `decodePairs`, used to spell out the byte contents of
the fixed template blocks. -/
def decode32 (s : String) : List Nat :=
  (decodePairs s.data).getD []

/-- A 32-character string of hexadecimal digits — the valid inputs of
`write_hex_to_pos`. -/
def validHex32 (s : String) : Prop :=
  s.length = 32 ∧ ∀ c ∈ s.data, isHexDigit c = true

/-- Fixed template, bytes 0-15 (manufacturer block). -/
def tmplBlk0 : List Nat := decode32 "11EEE82A3D080400047AC493FC85B798"

/-- Fixed template, bytes 48-159 (sector-0 trailer, all of sector 1, and
sector-2 blocks 0-1). -/
def tmplMid112 : List Nat :=
  decode32 "702A2630344B07878F692857385F6829" ++
  decode32 "1644FCA83EDE58D64683C53899F40AE4" ++
  decode32 "D10560C1F76AC151BF0732E6760052A4" ++
  decode32 "D10560C1F76AC151BF0732E6760052A4" ++
  decode32 "702A2630344B61E789692857385F6829" ++
  decode32 "D10560C1F76AC151BF0732E6760052A4" ++
  decode32 "D10560C1F76AC151BF0732E6760052A4"

/-- The 16-byte open trailer block written by the code for sectors 3-15. -/
def codeTrailer : List Nat := decode32 "FFFFFFFFFFFFFF078069FFFFFFFFFFFF"

/-- One filled sector of the 3-15 range: 48 zero bytes plus the trailer. -/
def sectorTailBytes : List Nat := List.replicate 48 0 ++ codeTrailer

/-- Fixed template, bytes 176-1023 (sector-2 trailer and sectors 3-15). -/
def tmplTail848 : List Nat :=
  decode32 "702A2630344B34B78C692857385F6829" ++
  (List.replicate 13 sectorTailBytes).flatten

/-- The open-trailer constant exactly as printed in the spec's file-format
table, `FFFFFFFFFFFF0780 69FFFFFFFFFFFF` (space ignored): fifteen bytes.
Modelled from the spec for comparison with the code's sixteen-byte block. -/
def specOpenTrailer : List Nat :=
  [0xFF, 0xFF, 0xFF, 0xFF, 0xFF, 0xFF, 0x07, 0x80, 0x69,
   0xFF, 0xFF, 0xFF, 0xFF, 0xFF, 0xFF]

/-- The spec's rendering rule for `encodeVariableField`: each character's
ASCII code as exactly two uppercase hex digits, order preserved.  Modelled
from the spec's words, for comparison with `generate_sector2_block3`. -/
def specAsciiHexRender (chars : List Char) : List Char :=
  chars.flatMap (fun c => [hexDigUp (c.toNat / 16), hexDigUp (c.toNat % 16)])

/-! ## TagMonitor (`NFCController.get_current_uid`) -/

/-- Does the character run `pat` occur at the start of `s`? -/
def beginsWith : List Char → List Char → Bool
  | [], _ => true
  | _ :: _, [] => false
  | p :: ps, c :: cs => p == c && beginsWith ps cs

/-- Does the character run `pat` occur contiguously anywhere in `s`?
(Python's `pat in s` substring test.) -/
def containsSeq (pat : List Char) : List Char → Bool
  | [] => beginsWith pat []
  | c :: cs => beginsWith pat (c :: cs) || containsSeq pat cs

/-- Python `pat in line` on strings. -/
def containsSub (line pat : String) : Bool :=
  containsSeq pat.data line.data

/-- Python `s.split(sep)` for a one-character separator: split at every
occurrence, keeping empty pieces. -/
def splitOnChar (sep : Char) : List Char → List (List Char)
  | [] => [[]]
  | c :: cs =>
    match splitOnChar sep cs with
    | [] => [[]]
    | grp :: rest =>
      if c == sep then [] :: grp :: rest else (c :: grp) :: rest

/-- Python `s.strip()`: drop whitespace from both ends.  (`Char.isWhitespace`
covers space, tab, CR and LF; Python strips a couple more exotic whitespace
code points, none of which the reader protocol emits.) -/
def stripChars (l : List Char) : List Char :=
  ((l.dropWhile Char.isWhitespace).reverse.dropWhile Char.isWhitespace).reverse

/-- `line.split(':')[-1].strip()` (src/main.py:293). -/
def parse_uid_chars (line : List Char) : List Char :=
  stripChars ((splitOnChar ':' line).getLastD [])

/-- The first line of the re-query output containing `"UID (NFCID1)"` — the
`for`/`break` scan of src/main.py:291-295. -/
def findUIDLine (lines : List (List Char)) : Option (List Char) :=
  lines.find? (fun l => containsSeq "UID (NFCID1)".data l)

/-- The monitor fields read and written by `get_current_uid`
(`self.current_uid`, `self.last_update_time`).  Times are in integer
milliseconds; the source's 0.1-second `update_interval` becomes 100. -/
structure MonitorView where
  current_uid : String
  last_update_time : Int
deriving DecidableEq, Repr

/-- `self.update_interval = 0.1` seconds (src/main.py:156), in ms. -/
def update_interval : Int := 100

/-- Outcome of the synchronous `subprocess.run([nfc_list_cmd], ...)`
re-query.  The whole call is modelled as `Option QueryResult`: `none` for an
exception (timeout, spawn failure), `some` for a completed run with its
return code and captured stdout. -/
structure QueryResult where
  returncode : Int
  stdout : String
deriving DecidableEq, Repr

/-- `NFCController.get_current_uid` (src/main.py:273-298).  Takes the
current monitor state, the value of `time.time()` (ms), and the result the
re-query would produce; returns the state after the call and the returned
UID string. -/
def get_current_uid (st : MonitorView) (current_time : Int)
    (query : Option QueryResult) : MonitorView × String :=
  if current_time - st.last_update_time > update_interval then
    match query with
    | none => (st, st.current_uid)
    | some r =>
      if r.returncode = 0 then
        match findUIDLine (splitOnChar '\n' r.stdout.data) with
        | some line =>
          let st2 : MonitorView := ⟨⟨parse_uid_chars line⟩, current_time⟩
          (st2, st2.current_uid)
        | none => (st, st.current_uid)
      else (st, st.current_uid)
  else (st, st.current_uid)

/-! ## AcquisitionLoop (`NFCController.wait_for_new_tag`) -/

/-- Result of one `wait_for_new_tag` call: the returned UID (empty on
timeout), the number of `get_current_uid` polls made, and the number of
duplicate-tag warnings logged. -/
structure WaitOutcome where
  uid : String
  polls : Nat
  warnings : Nat
deriving DecidableEq, Repr

/-- The `while time.time() - start_time < timeout` loop of
`wait_for_new_tag` (src/main.py:310-318).  Each iteration polls once and
then sleeps 100 ms, so after `k` iterations the elapsed time is `k` ticks;
`fuel` is the number of ticks still below the timeout.  `observe k` is what
`get_current_uid` returns at the `k`-th poll. -/
def wait_loop (observe : Nat → String) (processed : List String) :
    Nat → Nat → Nat → WaitOutcome
  | 0, k, w => ⟨"", k, w⟩
  | fuel + 1, k, w =>
    let uid := observe k
    if uid ≠ "" then
      if uid ∉ processed then ⟨uid, k + 1, w⟩
      else wait_loop observe processed fuel (k + 1) (w + 1)
    else wait_loop observe processed fuel (k + 1) w

/-- `NFCController.wait_for_new_tag` (src/main.py:300-321) with the timeout
expressed in 100 ms ticks (the source default of 30 s is 300 ticks). -/
def wait_for_new_tag (observe : Nat → String) (processed : List String)
    (timeout : Nat) : WaitOutcome :=
  wait_loop observe processed timeout 0 0

/-! ## WriteOrchestrator (`NFCController.write_tag_from_file`) -/

/-- Modelled from the spec: success detection of §4.4 —
`NFCController.write_tag_from_file` is called at src/main.py:426 but its
definition is absent from the source, so the writer layer is taken from the
spec's words.  An attempt succeeds when the writer's captured stdout
contains both `"Done"` and `"blocks written"`. -/
def attemptSucceeds (out : String) : Bool :=
  containsSub out "Done" && containsSub out "blocks written"

/-- Result of `write_tag_from_file`: overall success, attempts actually
made, and total delay waited (time units). -/
structure WriteResult where
  success : Bool
  attempts : Nat
  delay : Nat
deriving DecidableEq, Repr

/-- Modelled from the spec: the retry loop of §4.4.  `outs k` is the stdout
the external writer would produce on attempt `k` (0-based); a failed
attempt followed by a remaining retry waits the fixed 5-unit delay and
retries; after `maxRetries` total attempts the call gives up. -/
def write_retry_loop (outs : Nat → String) : Nat → Nat → Nat → WriteResult
  | 0, k, d => ⟨false, k, d⟩
  | remaining + 1, k, d =>
    if attemptSucceeds (outs k) then ⟨true, k + 1, d⟩
    else if remaining = 0 then ⟨false, k + 1, d⟩
    else write_retry_loop outs remaining (k + 1) (d + 5)

/-- Modelled from the spec: `write_tag_from_file(source, keydump,
max_retries)` — absent from src/main.py (only called at line 426); spec §4.4
gives `maxRetries = 3` by default, constant 5-unit inter-attempt delay, and
textual success detection. -/
def write_tag_from_file (outs : Nat → String) (maxRetries : Nat) : WriteResult :=
  write_retry_loop outs maxRetries 0 0

/-- The spec's default `maxRetries`. -/
def defaultMaxRetries : Nat := 3

end NFC

namespace NFC

theorem hexVal_lt_16 (c : Char) (h : isHexDigit c = true) : hexVal c < 16 := by
  simp only [isHexDigit, Bool.or_eq_true, Bool.and_eq_true, decide_eq_true_eq] at h
  unfold hexVal
  generalize c.toNat = t at h ⊢
  rcases h with (⟨h1, h2⟩ | ⟨h1, h2⟩ | ⟨h1, h2⟩) <;> split <;> try omega
  all_goals split <;> omega

theorem pairDecode_lt_256 (c1 c2 : Char) (v : Nat)
    (h : pairDecode c1 c2 = some v) : v < 256 := by
  unfold pairDecode at h
  split at h
  · rename_i hb
    simp only [Bool.and_eq_true] at hb
    have b1 := hexVal_lt_16 c1 hb.1
    have b2 := hexVal_lt_16 c2 hb.2
    simp only [Option.some.injEq] at h
    omega
  · exact absurd h (by simp)

theorem decodePairs_length : ∀ (chars : List Char) (ds : List Nat),
    decodePairs chars = some ds → chars.length = 2 * ds.length
  | [], ds, h => by
    simp only [decodePairs, Option.some.injEq] at h
    subst h; rfl
  | [c], ds, h => by simp [decodePairs] at h
  | c1 :: c2 :: rest, ds, h => by
    simp only [decodePairs] at h
    cases hp : pairDecode c1 c2 with
    | none => rw [hp] at h; simp at h
    | some v =>
      rw [hp] at h
      cases hr : decodePairs rest with
      | none => rw [hr] at h; simp at h
      | some ds2 =>
        rw [hr] at h
        simp only [Option.some.injEq] at h
        subst h
        have ih := decodePairs_length rest ds2 hr
        simp only [List.length_cons]
        omega

theorem decodePairs_of_valid : ∀ (chars : List Char),
    (∀ c ∈ chars, isHexDigit c = true) → chars.length % 2 = 0 →
    ∃ ds, decodePairs chars = some ds
  | [], _, _ => ⟨[], rfl⟩
  | [c], _, hl => by simp at hl
  | c1 :: c2 :: rest, hv, hl => by
    have h1 : isHexDigit c1 = true := hv c1 (by simp)
    have h2 : isHexDigit c2 = true := hv c2 (by simp)
    have hrest : ∀ c ∈ rest, isHexDigit c = true := fun c hc => hv c (by simp [hc])
    have hlr : rest.length % 2 = 0 := by
      simp only [List.length_cons] at hl; omega
    obtain ⟨ds2, hds2⟩ := decodePairs_of_valid rest hrest hlr
    refine ⟨(hexVal c1 * 16 + hexVal c2) :: ds2, ?_⟩
    simp [decodePairs, pairDecode, h1, h2, hds2]

/-- The decoded-pair write loop, characterized on an arbitrary buffer: when
every pair decodes and the sixteen target indices are in range, exactly the
bytes `[pos, pos + ds.length)` are replaced by the decoded bytes. -/
theorem pairsWrite_eq : ∀ (chars : List Char) (buf ds : List Nat) (pos : Nat),
    decodePairs chars = some ds → pos + ds.length ≤ buf.length →
    pairsWrite buf pos chars
      = (buf.take pos ++ ds ++ buf.drop (pos + ds.length), true)
  | [], buf, ds, pos, h, hle => by
    simp only [decodePairs, Option.some.injEq] at h
    subst h
    simp [pairsWrite]
  | [c], buf, ds, pos, h, hle => by simp [decodePairs] at h
  | c1 :: c2 :: rest, buf, ds, pos, h, hle => by
    simp only [decodePairs] at h
    cases hp : pairDecode c1 c2 with
    | none => rw [hp] at h; simp at h
    | some v =>
      rw [hp] at h
      cases hr : decodePairs rest with
      | none => rw [hr] at h; simp at h
      | some ds2 =>
        rw [hr] at h
        simp only [Option.some.injEq] at h
        subst h
        have hlen : rest.length = 2 * ds2.length := decodePairs_length rest ds2 hr
        have hposlt : pos < buf.length := by
          simp only [List.length_cons] at hle; omega
        have hv256 : v < 256 := pairDecode_lt_256 c1 c2 v hp
        have hbs : byteSet buf pos v = some (buf.set pos v) := by
          simp [byteSet, hposlt, hv256]
        simp only [pairsWrite, hp, hbs]
        have hle2 : (pos + 1) + ds2.length ≤ (buf.set pos v).length := by
          simp only [List.length_set, List.length_cons] at hle ⊢; omega
        rw [pairsWrite_eq rest (buf.set pos v) ds2 (pos + 1) hr hle2]
        have hset : buf.set pos v = buf.take pos ++ v :: buf.drop (pos + 1) := by
          rw [List.set_eq_take_append_cons_drop]; simp [hposlt]
        have h1 : (buf.take pos).length = pos := by
          rw [List.length_take]; omega
        have htk : (buf.set pos v).take (pos + 1) = buf.take pos ++ [v] := by
          rw [hset, List.take_append_eq_append_take, h1,
            show pos + 1 - pos = 1 from by omega]
          rw [List.take_of_length_le (by rw [h1]; omega)]
          simp
        have hdr : (buf.set pos v).drop (pos + 1 + ds2.length)
            = buf.drop (pos + 1 + ds2.length) := by
          rw [List.drop_set]
          simp only [if_pos (by omega : pos < pos + 1 + ds2.length)]
        rw [htk, hdr]
        simp only [List.length_cons]
        rw [show pos + (ds2.length + 1) = pos + 1 + ds2.length by omega]
        simp [List.append_assoc]

/-- `write_hex_to_pos` on a valid input: success, with exactly the sixteen
bytes at `[pos, pos + 16)` replaced. -/
theorem write_hex_to_pos_valid (buf : List Nat) (s : String) (pos : Nat)
    (ds : List Nat) (hlen : s.length = 32) (hdec : decodePairs s.data = some ds)
    (hle : pos + 16 ≤ buf.length) :
    ds.length = 16 ∧
    write_hex_to_pos buf s pos = (buf.take pos ++ ds ++ buf.drop (pos + 16), true) := by
  have hds16 : ds.length = 16 := by
    have := decodePairs_length s.data ds hdec
    have : s.data.length = 32 := hlen
    omega
  constructor
  · exact hds16
  · unfold write_hex_to_pos
    rw [if_neg (by omega)]
    rw [pairsWrite_eq s.data buf ds pos hdec (by omega)]
    rw [hds16]

theorem char_eq_of_toNat (c d : Char) (h : c.toNat = d.toNat) : c = d := by
  apply Char.eq_of_val_eq
  apply UInt32.eq_of_val_eq
  exact Fin.val_injective h

theorem upperHex_isHex (c : Char) (h : isUpperHex c = true) :
    isHexDigit c = true := by
  simp only [isUpperHex, isHexDigit, Bool.or_eq_true, Bool.and_eq_true,
    decide_eq_true_eq] at h ⊢
  omega

theorem hexDigUp_hexVal (c : Char) (h : isUpperHex c = true) :
    hexDigUp (hexVal c) = c := by
  simp only [isUpperHex, Bool.or_eq_true, Bool.and_eq_true,
    decide_eq_true_eq] at h
  have hv : c.toNat = 48 ∨ c.toNat = 49 ∨ c.toNat = 50 ∨ c.toNat = 51 ∨
      c.toNat = 52 ∨ c.toNat = 53 ∨ c.toNat = 54 ∨ c.toNat = 55 ∨
      c.toNat = 56 ∨ c.toNat = 57 ∨ c.toNat = 65 ∨ c.toNat = 66 ∨
      c.toNat = 67 ∨ c.toNat = 68 ∨ c.toNat = 69 ∨ c.toNat = 70 := by omega
  rcases hv with h | h | h | h | h | h | h | h | h | h | h | h | h | h | h | h <;>
    exact char_eq_of_toNat _ _ (by simp [hexVal, hexDigUp, h])

theorem natHexUpGo_small (fuel n : Nat) (h : n < 16) :
    natHexUpGo fuel n = [hexDigUp n] := by
  cases fuel
  · rfl
  · simp [natHexUpGo, h]

theorem natHexUp_lt_16 (n : Nat) (h : n < 16) : natHexUp n = [hexDigUp n] := by
  rw [natHexUp]
  exact natHexUpGo_small n n h

theorem natHexUp_ge_aux (n : Nat) (h : 16 ≤ n) :
    natHexUp n = natHexUpGo (n - 1) (n / 16) ++ [hexDigUp (n % 16)] := by
  obtain ⟨m, rfl⟩ : ∃ m, n = m + 1 := ⟨n - 1, by omega⟩
  show natHexUpGo (m + 1) (m + 1) = _
  simp [natHexUpGo, show ¬ (m + 1 < 16) by omega]

theorem natHexUpGo_eq : ∀ (n fuel : Nat), n ≤ fuel → natHexUpGo fuel n = natHexUp n := by
  intro n
  induction n using Nat.strong_induction_on with
  | _ n ih =>
    intro fuel hf
    by_cases h16 : n < 16
    · rw [natHexUpGo_small fuel n h16, natHexUp, natHexUpGo_small n n h16]
    · have hdiv : n / 16 < n := Nat.div_lt_self (by omega) (by omega)
      obtain ⟨f, rfl⟩ : ∃ f, fuel = f + 1 := ⟨fuel - 1, by omega⟩
      rw [show natHexUpGo (f + 1) n
          = natHexUpGo f (n / 16) ++ [hexDigUp (n % 16)] by
        simp [natHexUpGo, h16]]
      rw [natHexUp_ge_aux n (by omega)]
      congr 1
      rw [ih (n / 16) hdiv f (by omega), ih (n / 16) hdiv (n - 1) (by omega)]

theorem natHexUp_ge_16 (n : Nat) (h : 16 ≤ n) :
    natHexUp n = natHexUp (n / 16) ++ [hexDigUp (n % 16)] := by
  have hdiv : n / 16 < n := Nat.div_lt_self (by omega) (by omega)
  rw [natHexUp_ge_aux n h, natHexUpGo_eq (n / 16) (n - 1) (by omega)]

theorem byteHexChars_eq (n : Nat) (h : n < 256) :
    byteHexChars n = [hexDigUp (n / 16), hexDigUp (n % 16)] := by
  unfold byteHexChars
  by_cases h16 : n < 16
  · rw [natHexUp_lt_16 n h16]
    have : n / 16 = 0 := by omega
    rw [this]
    have : n % 16 = n := by omega
    rw [this]
    simp [zfill2, hexDigUp]
  · rw [natHexUp_ge_16 n (by omega)]
    rw [natHexUp_lt_16 (n / 16) (by omega)]
    simp [zfill2]

theorem byteHexChars_pair (c1 c2 : Char) (v : Nat)
    (hp : pairDecode c1 c2 = some v)
    (h1 : isUpperHex c1 = true) (h2 : isUpperHex c2 = true) :
    byteHexChars v = [c1, c2] := by
  have hx1 := upperHex_isHex c1 h1
  have hx2 := upperHex_isHex c2 h2
  have hb1 := hexVal_lt_16 c1 hx1
  have hb2 := hexVal_lt_16 c2 hx2
  have hv : v = hexVal c1 * 16 + hexVal c2 := by
    unfold pairDecode at hp
    rw [if_pos (by simp [hx1, hx2])] at hp
    exact (Option.some.injEq _ _ ▸ hp).symm
  have hdiv : v / 16 = hexVal c1 := by omega
  have hmod : v % 16 = hexVal c2 := by omega
  rw [byteHexChars_eq v (by omega), hdiv, hmod,
    hexDigUp_hexVal c1 h1, hexDigUp_hexVal c2 h2]

/-- Uppercase round trip: re-rendering the decoded bytes of an
uppercase-hex character list gives the list back. -/
theorem encodeHexUpper_decodePairs : ∀ (chars : List Char) (ds : List Nat),
    decodePairs chars = some ds → (∀ c ∈ chars, isUpperHex c = true) →
    encodeHexUpper ds = chars
  | [], ds, h, _ => by
    simp only [decodePairs, Option.some.injEq] at h
    subst h; rfl
  | [c], ds, h, _ => by simp [decodePairs] at h
  | c1 :: c2 :: rest, ds, h, hu => by
    simp only [decodePairs] at h
    cases hp : pairDecode c1 c2 with
    | none => rw [hp] at h; simp at h
    | some v =>
      rw [hp] at h
      cases hr : decodePairs rest with
      | none => rw [hr] at h; simp at h
      | some ds2 =>
        rw [hr] at h
        simp only [Option.some.injEq] at h
        subst h
        have ih := encodeHexUpper_decodePairs rest ds2 hr
          (fun c hc => hu c (by simp [hc]))
        have hpair := byteHexChars_pair c1 c2 v hp
          (hu c1 (by simp)) (hu c2 (by simp))
        simp only [encodeHexUpper, List.flatMap_cons] at ih ⊢
        rw [hpair, ih]
        rfl

/-! ## Claim C2 -/

/-- C2, counterexample: the 32-character input `"00GG…G"` is not a string of
32 hexadecimal characters, and `write_hex_to_pos` does fail on it — but the
buffer is NOT left unchanged: the first pair `"00"` is written before the
bad pair `"GG"` raises, so the claim's no-partial-mutation guarantee is
false. -/
theorem C2_cex_partial_mutation :
    ¬ (∀ c ∈ ("00GGGGGGGGGGGGGGGGGGGGGGGGGGGGGG" : String).data,
        isHexDigit c = true) ∧
    ("00GGGGGGGGGGGGGGGGGGGGGGGGGGGGGG" : String).length = 32 ∧
    (write_hex_to_pos (List.replicate 16 170)
        "00GGGGGGGGGGGGGGGGGGGGGGGGGGGGGG" 0).2 = false ∧
    (write_hex_to_pos (List.replicate 16 170)
        "00GGGGGGGGGGGGGGGGGGGGGGGGGGGGGG" 0).1 ≠ List.replicate 16 170 := by
  refine ⟨by decide, by decide, by decide, by decide⟩

/-- C2, amended: an input whose LENGTH differs from 32 always fails with the
encoding error and leaves the buffer byte-for-byte unchanged (the length
guard precedes any write); a 32-character input containing an invalid pair
also fails, but the pairs preceding the first invalid one are already
written (see the counterexample). -/
theorem C2_bad_length_no_mutation (buf : List Nat) (s : String) (pos : Nat)
    (h : s.length ≠ 32) : write_hex_to_pos buf s pos = (buf, false) := by
  unfold write_hex_to_pos
  rw [if_pos h]

/-- C2 witness: the amended theorem at a concrete short input. -/
theorem C2_bad_length_witness :
    write_hex_to_pos [1, 2, 3] "abc" 0 = ([1, 2, 3], false) :=
  C2_bad_length_no_mutation [1, 2, 3] "abc" 0 (by decide)

/-! ## Claim C3 -/

/-- C3, counterexample: `"ab" ++ "0" * 30` is a valid 32-hex-character
string (lowercase letters are hexadecimal characters and `int(_, 16)`
accepts them), its decode succeeds, but the codebase's hex rendering of the
decoded bytes is uppercase and does not reproduce the input. -/
theorem C3_cex_lowercase :
    validHex32 ("ab000000000000000000000000000000" : String) ∧
    decodePairs ("ab000000000000000000000000000000" : String).data
      = some [171, 0, 0, 0, 0, 0, 0, 0, 0, 0, 0, 0, 0, 0, 0, 0] ∧
    encodeHexUpper [171, 0, 0, 0, 0, 0, 0, 0, 0, 0, 0, 0, 0, 0, 0, 0]
      ≠ ("ab000000000000000000000000000000" : String).data := by
  refine ⟨⟨by decide, by decide⟩, by decide, by decide⟩

/-- C3, amended: for every 32-character input over the digits and UPPERCASE
hex letters, `write_hex_to_pos` succeeds, writes exactly the 16 bytes
decoded pair-by-pair left to right at `[pos, pos+16)`, and the uppercase hex
rendering of those bytes reproduces the input; an input containing
lowercase hex letters still decodes, but renders back as its uppercase
version, not as itself (see the counterexample). -/
theorem C3_roundtrip (s : String) (buf : List Nat) (pos : Nat)
    (hlen : s.length = 32) (hup : ∀ c ∈ s.data, isUpperHex c = true)
    (hpos : pos + 16 ≤ buf.length) :
    ∃ ds, decodePairs s.data = some ds ∧ ds.length = 16 ∧
      write_hex_to_pos buf s pos
        = (buf.take pos ++ ds ++ buf.drop (pos + 16), true) ∧
      encodeHexUpper ds = s.data := by
  have hvalid : ∀ c ∈ s.data, isHexDigit c = true :=
    fun c hc => upperHex_isHex c (hup c hc)
  have hdatalen : s.data.length = 32 := hlen
  obtain ⟨ds, hds⟩ := decodePairs_of_valid s.data hvalid (by omega)
  obtain ⟨h16, hw⟩ := write_hex_to_pos_valid buf s pos ds hlen hds hpos
  exact ⟨ds, hds, h16, hw, encodeHexUpper_decodePairs s.data ds hds hup⟩

/-! ## Claim C9 -/

theorem render_eq_spec : ∀ (chars : List Char), (∀ c ∈ chars, c.toNat < 256) →
    chars.flatMap (fun c => byteHexChars c.toNat) = specAsciiHexRender chars
  | [], _ => rfl
  | c :: rest, h => by
    have hc : c.toNat < 256 := h c (by simp)
    have ih := render_eq_spec rest (fun d hd => h d (by simp [hd]))
    simp only [specAsciiHexRender, List.flatMap_cons] at ih ⊢
    rw [byteHexChars_eq c.toNat hc, ih]

theorem specAsciiHexRender_length : ∀ (chars : List Char),
    (specAsciiHexRender chars).length = 2 * chars.length
  | [] => rfl
  | c :: rest => by
    have ih := specAsciiHexRender_length rest
    simp only [specAsciiHexRender, List.flatMap_cons, List.length_append,
      List.length_cons, List.length_nil] at ih ⊢
    omega

/-- C9: for an 8-digit date and a 6-digit suffix, `generate_sector2_block3`
returns the 32-character string rendering each character of
`date ++ "BB" ++ suffix` as two uppercase hex digits of its ASCII code, in
order; and in particular
`generate_sector2_block3 "20240315" "654321"` is
`"32303234303331354242363534333231"`. -/
theorem C9_encodeVariableField :
    (∀ (date suffix : String),
      (∀ c ∈ date.data, 48 ≤ c.toNat ∧ c.toNat ≤ 57) →
      (∀ c ∈ suffix.data, 48 ≤ c.toNat ∧ c.toNat ≤ 57) →
      date.length = 8 → suffix.length = 6 →
      (generate_sector2_block3 date suffix).length = 32 ∧
      (generate_sector2_block3 date suffix).data
        = specAsciiHexRender ((date ++ "BB" ++ suffix).data)) ∧
    generate_sector2_block3 "20240315" "654321"
      = "32303234303331354242363534333231" := by
  constructor
  · intro date suffix hd hs hld hls
    have hmem : ∀ c ∈ (date ++ "BB" ++ suffix).data, c.toNat < 256 := by
      intro c hc
      simp only [String.data_append] at hc
      rcases List.mem_append.mp hc with hc2 | hc2
      · rcases List.mem_append.mp hc2 with hc3 | hc3
        · exact (hd c hc3).2.trans_lt (by omega)
        · have : c = 'B' := by
            simpa using hc3
          subst this; decide
      · exact (hs c hc2).2.trans_lt (by omega)
    have hdata : (generate_sector2_block3 date suffix).data
        = specAsciiHexRender ((date ++ "BB" ++ suffix).data) := by
      show ((date ++ "BB" ++ suffix).data.flatMap
        (fun c => byteHexChars c.toNat)) = _
      exact render_eq_spec _ hmem
    refine ⟨?_, hdata⟩
    show (generate_sector2_block3 date suffix).data.length = 32
    rw [hdata, specAsciiHexRender_length]
    have h16 : (date ++ "BB" ++ suffix).data.length = 16 := by
      simp only [String.data_append, List.length_append]
      have h1 : date.data.length = 8 := hld
      have h2 : suffix.data.length = 6 := hls
      simp [h1, h2]
    omega
  · decide

/-- C9 witness: the universal part applied at the spec's own example. -/
theorem C9_encodeVariableField_witness :
    (generate_sector2_block3 "20240315" "654321").length = 32 ∧
    (generate_sector2_block3 "20240315" "654321").data
      = specAsciiHexRender (("20240315" ++ "BB" ++ "654321").data) :=
  C9_encodeVariableField.1 "20240315" "654321"
    (by decide) (by decide) (by decide) (by decide)

/-- C3 witness: the amended round trip at a concrete uppercase input. -/
theorem C3_roundtrip_witness :
    ∃ ds, decodePairs ("11EEE82A3D080400047AC493FC85B798" : String).data
        = some ds ∧ ds.length = 16 ∧
      write_hex_to_pos (List.replicate 32 0) "11EEE82A3D080400047AC493FC85B798" 8
        = ((List.replicate 32 0).take 8 ++ ds ++ (List.replicate 32 0).drop (8 + 16),
           true) ∧
      encodeHexUpper ds = ("11EEE82A3D080400047AC493FC85B798" : String).data :=
  C3_roundtrip "11EEE82A3D080400047AC493FC85B798" (List.replicate 32 0) 8
    (by decide) (by decide) (by decide)

/-! ## Claims C4 and C5 -/

theorem wait_loop_no_uid (observe : Nat → String) (processed : List String)
    (h : ∀ k, observe k = "") :
    ∀ (fuel k w : Nat), wait_loop observe processed fuel k w = ⟨"", k + fuel, w⟩ := by
  intro fuel
  induction fuel with
  | zero => intro k w; rfl
  | succ f ih =>
    intro k w
    simp only [wait_loop]
    rw [if_neg (by simp [h k])]
    rw [ih (k + 1) w]
    congr 1
    omega

/-- C5: with a monitor that never reports a UID, `wait_for_new_tag` returns
the empty string, and only after polling through every one of the `timeout`
100 ms ticks — never before the elapsed time reaches the timeout. -/
theorem C5_timeout_empty (observe : Nat → String) (processed : List String)
    (timeout : Nat) (h : ∀ k, observe k = "") :
    wait_for_new_tag observe processed timeout = ⟨"", timeout, 0⟩ := by
  rw [wait_for_new_tag, wait_loop_no_uid observe processed h timeout 0 0]
  simp

/-- C5 witness: a silent monitor and a 3-tick timeout. -/
theorem C5_timeout_empty_witness :
    wait_for_new_tag (fun _ => "") ["A", "B"] 3 = ⟨"", 3, 0⟩ :=
  C5_timeout_empty (fun _ => "") ["A", "B"] 3 (fun _ => rfl)

theorem wait_loop_first (observe : Nat → String) (processed : List String)
    (k0 : Nat) (hne : observe k0 ≠ "") (hnp : observe k0 ∉ processed)
    (hmin : ∀ j, j < k0 → observe j = "" ∨ observe j ∈ processed) :
    ∀ (fuel k w : Nat), k ≤ k0 → k0 < k + fuel →
    wait_loop observe processed fuel k w
      = ⟨observe k0, k0 + 1,
         w + (List.range' k (k0 - k)).countP (fun j => observe j != "")⟩ := by
  intro fuel
  induction fuel with
  | zero => intro k w hk hlt; omega
  | succ f ih =>
    intro k w hk hlt
    by_cases hkk : k = k0
    · subst hkk
      simp only [wait_loop]
      rw [if_pos hne, if_pos hnp]
      simp [List.range']
    · have hklt : k < k0 := by omega
      by_cases hek : observe k = ""
      · have hcnt : (List.range' k (k0 - k)).countP (fun j => observe j != "")
            = (List.range' (k + 1) (k0 - (k + 1))).countP
                (fun j => observe j != "") := by
          rw [show k0 - k = (k0 - (k + 1)) + 1 from by omega, List.range'_succ,
            List.countP_cons]
          simp [hek]
        simp only [wait_loop]
        rw [if_neg (by simp [hek])]
        rw [ih (k + 1) w (by omega) (by omega)]
        congr 1
        rw [hcnt]
      · have hpk : observe k ∈ processed := by
          rcases hmin k hklt with h | h
          · exact absurd h hek
          · exact h
        have hb : (observe k != "") = true := by simp [hek]
        have hcnt : (List.range' k (k0 - k)).countP (fun j => observe j != "")
            = ((List.range' (k + 1) (k0 - (k + 1))).countP
                (fun j => observe j != "")) + 1 := by
          rw [show k0 - k = (k0 - (k + 1)) + 1 from by omega, List.range'_succ,
            List.countP_cons, hb]
          simp
        simp only [wait_loop]
        rw [if_pos hek, if_neg (by simpa using hpk)]
        rw [ih (k + 1) (w + 1) (by omega) (by omega)]
        congr 1
        rw [hcnt]
        omega

/-- C4: the first time a non-empty UID outside the processed set is
observed (poll `k0`, within the timeout window), `wait_for_new_tag` returns
exactly that UID at poll `k0 + 1`, and every earlier non-empty observation
(necessarily an already-processed UID) produced one duplicate warning and a
continued poll — neither a return nor any extension of the timeout clock. -/
theorem C4_first_new_tag (observe : Nat → String) (processed : List String)
    (timeout k0 : Nat) (hk : k0 < timeout)
    (hne : observe k0 ≠ "") (hnp : observe k0 ∉ processed)
    (hmin : ∀ j, j < k0 → observe j = "" ∨ observe j ∈ processed) :
    wait_for_new_tag observe processed timeout
      = ⟨observe k0, k0 + 1,
         (List.range k0).countP (fun j => observe j != "")⟩ := by
  rw [wait_for_new_tag,
    wait_loop_first observe processed k0 hne hnp hmin timeout 0 0
      (by omega) (by omega)]
  congr 1
  rw [List.range_eq_range']
  simp

/-- C4 witness: the processed UID `"A"` seen at poll 0 warns and keeps
polling; the fresh `"B"` at poll 1 is returned. -/
theorem C4_first_new_tag_witness :
    wait_for_new_tag (fun k => if k = 0 then "A" else if k = 1 then "B" else "")
      ["A"] 5 = ⟨"B", 2, 1⟩ :=
  (C4_first_new_tag (fun k => if k = 0 then "A" else if k = 1 then "B" else "")
    ["A"] 5 1 (by decide) (by decide) (by decide) (by decide)).trans (by decide)

/-! ## Image decomposition (shared by claims C6, C7, C8) -/

theorem writeHexE_step (buf done : List Nat) (m pos : Nat) (s : String)
    (ds : List Nat) (hbuf : buf = done ++ List.replicate m 0)
    (hpos : pos = done.length) (hm : 16 ≤ m) (hlen : s.length = 32)
    (hdec : decodePairs s.data = some ds) :
    writeHexE buf s pos = some (done ++ ds ++ List.replicate (m - 16) 0) := by
  subst hbuf hpos
  have hblen : (done ++ List.replicate m 0).length = done.length + m := by
    simp [List.length_append, List.length_replicate]
  obtain ⟨h16, hw⟩ := write_hex_to_pos_valid (done ++ List.replicate m 0) s
    done.length ds hlen hdec (by omega)
  unfold writeHexE
  rw [hw]
  have htake : (done ++ List.replicate m 0).take done.length = done :=
    @List.take_left' _ done (List.replicate m 0) done.length rfl
  have hdrop : (done ++ List.replicate m 0).drop (done.length + 16)
      = List.replicate (m - 16) 0 := by
    rw [List.drop_append_eq_append_drop,
      List.drop_eq_nil_of_le (by omega),
      show done.length + 16 - done.length = 16 from by omega,
      List.drop_replicate]
    rfl
  rw [htake, hdrop]

theorem rep3_16 (X : List Nat) :
    List.replicate 16 (0 : Nat) ++ (List.replicate 16 (0 : Nat)
      ++ (List.replicate 16 (0 : Nat) ++ X))
      = List.replicate 48 (0 : Nat) ++ X := by
  rw [← List.append_assoc, ← List.replicate_add]
  rw [← List.append_assoc, ← List.replicate_add]

theorem fill_sector_step (done : List Nat) (m sec : Nat)
    (hpos : done.length = sec * 64) (hm : 64 ≤ m) :
    fill_sector (done ++ List.replicate m 0) sec
      = some (done ++ sectorTailBytes ++ List.replicate (m - 64) 0) := by
  unfold fill_sector
  rw [show List.range 3 = [0, 1, 2] from by decide]
  simp only [List.foldlM_cons, List.foldlM_nil]
  rw [writeHexE_step (done ++ List.replicate m 0) done m (sec * 64 + 0 * 16)
    "00000000000000000000000000000000" (List.replicate 16 0) rfl (by omega)
    (by omega) (by decide) (by decide)]
  simp only [Option.bind_eq_bind, Option.some_bind, Option.pure_def]
  rw [writeHexE_step _ (done ++ List.replicate 16 0) (m - 16) (sec * 64 + 1 * 16)
    "00000000000000000000000000000000" (List.replicate 16 0) rfl
    (by simp [List.length_append, List.length_replicate]; omega)
    (by omega) (by decide) (by decide)]
  simp only [Option.bind_eq_bind, Option.some_bind]
  rw [writeHexE_step _ (done ++ List.replicate 16 0 ++ List.replicate 16 0)
    (m - 16 - 16) (sec * 64 + 2 * 16)
    "00000000000000000000000000000000" (List.replicate 16 0) rfl
    (by simp [List.length_append, List.length_replicate]; omega)
    (by omega) (by decide) (by decide)]
  simp only [Option.bind_eq_bind, Option.some_bind]
  rw [writeHexE_step _
    (done ++ List.replicate 16 0 ++ List.replicate 16 0 ++ List.replicate 16 0)
    (m - 16 - 16 - 16) (sec * 64 + 48)
    "FFFFFFFFFFFFFF078069FFFFFFFFFFFF" codeTrailer rfl
    (by simp [List.length_append, List.length_replicate]; omega)
    (by omega) (by decide) (by decide)]
  have hm4 : m - 16 - 16 - 16 - 16 = m - 64 := by omega
  rw [hm4]
  congr 1
  simp only [sectorTailBytes, List.append_assoc]
  rw [rep3_16]

theorem fillSectors_loop : ∀ (count s0 : Nat) (done : List Nat) (m : Nat),
    done.length = s0 * 64 → m = count * 64 →
    (List.range' s0 count).foldlM fill_sector (done ++ List.replicate m 0)
      = some (done ++ (List.replicate count sectorTailBytes).flatten) := by
  intro count
  induction count with
  | zero =>
    intro s0 done m h1 h2
    subst h2
    simp
  | succ c ih =>
    intro s0 done m h1 h2
    rw [List.range'_succ, List.foldlM_cons,
      fill_sector_step done m s0 h1 (by omega)]
    show (some _ >>= _) = _
    rw [show ∀ (a : List Nat) (f : List Nat → Option (List Nat)),
        (some a >>= f) = f a from fun a f => rfl]
    rw [ih (s0 + 1) (done ++ sectorTailBytes) (m - 64)
      (by simp [List.length_append, show sectorTailBytes.length = 64 from by decide,
        h1]; omega)
      (by omega)]
    rw [List.replicate_succ, List.flatten_cons, List.append_assoc]

/-- The image built by `generate_binary_mfd` from three valid blocks is the
fixed template with the three decoded blocks spliced in at bytes
`[16, 32)`, `[32, 48)` and `[160, 176)`. -/
theorem generate_binary_mfd_decomp (b1 b2 b3 : String) (d1 d2 d3 : List Nat)
    (hl1 : b1.length = 32) (hd1 : decodePairs b1.data = some d1)
    (hl2 : b2.length = 32) (hd2 : decodePairs b2.data = some d2)
    (hl3 : b3.length = 32) (hd3 : decodePairs b3.data = some d3) :
    generate_binary_mfd_resolved b1 b2 b3
      = some (tmplBlk0 ++ (d1 ++ (d2 ++ (tmplMid112 ++ (d3 ++ tmplTail848))))) := by
  have e1 : d1.length = 16 := by
    have h := decodePairs_length b1.data d1 hd1
    have h2 : b1.data.length = 32 := hl1
    omega
  have e2 : d2.length = 16 := by
    have h := decodePairs_length b2.data d2 hd2
    have h2 : b2.data.length = 32 := hl2
    omega
  have e3 : d3.length = 16 := by
    have h := decodePairs_length b3.data d3 hd3
    have h2 : b3.data.length = 32 := hl3
    omega
  have lc0 : (decode32 "11EEE82A3D080400047AC493FC85B798").length = 16 := by decide
  have lc48 : (decode32 "702A2630344B07878F692857385F6829").length = 16 := by decide
  have lc64 : (decode32 "1644FCA83EDE58D64683C53899F40AE4").length = 16 := by decide
  have lcD : (decode32 "D10560C1F76AC151BF0732E6760052A4").length = 16 := by decide
  have lc112 : (decode32 "702A2630344B61E789692857385F6829").length = 16 := by decide
  have lc176 : (decode32 "702A2630344B34B78C692857385F6829").length = 16 := by decide
  unfold generate_binary_mfd_resolved
  rw [writeHexE_step (List.replicate 1024 0) [] 1024 0
    "11EEE82A3D080400047AC493FC85B798"
    (decode32 "11EEE82A3D080400047AC493FC85B798") rfl rfl (by omega)
    (by decide) (by decide), Option.some_bind]
  rw [writeHexE_step _ ([] ++ decode32 "11EEE82A3D080400047AC493FC85B798")
    1008 16 b1 d1 rfl
    (by simp [List.length_append, lc0]) (by omega) hl1 hd1, Option.some_bind]
  rw [writeHexE_step _
    ([] ++ decode32 "11EEE82A3D080400047AC493FC85B798" ++ d1)
    992 32 b2 d2 rfl
    (by simp [List.length_append, lc0, e1]) (by omega) hl2 hd2, Option.some_bind]
  rw [writeHexE_step _
    ([] ++ decode32 "11EEE82A3D080400047AC493FC85B798" ++ d1 ++ d2)
    976 48 "702A2630344B07878F692857385F6829"
    (decode32 "702A2630344B07878F692857385F6829") rfl
    (by simp [List.length_append, lc0, e1, e2]) (by omega) (by decide) (by decide), Option.some_bind]
  rw [writeHexE_step _
    ([] ++ decode32 "11EEE82A3D080400047AC493FC85B798" ++ d1 ++ d2
      ++ decode32 "702A2630344B07878F692857385F6829")
    960 64 "1644FCA83EDE58D64683C53899F40AE4"
    (decode32 "1644FCA83EDE58D64683C53899F40AE4") rfl
    (by simp [List.length_append, lc0, lc48, e1, e2]) (by omega)
    (by decide) (by decide), Option.some_bind]
  rw [writeHexE_step _
    ([] ++ decode32 "11EEE82A3D080400047AC493FC85B798" ++ d1 ++ d2
      ++ decode32 "702A2630344B07878F692857385F6829"
      ++ decode32 "1644FCA83EDE58D64683C53899F40AE4")
    944 80 "D10560C1F76AC151BF0732E6760052A4"
    (decode32 "D10560C1F76AC151BF0732E6760052A4") rfl
    (by simp [List.length_append, lc0, lc48, lc64, e1, e2]) (by omega)
    (by decide) (by decide), Option.some_bind]
  rw [writeHexE_step _
    ([] ++ decode32 "11EEE82A3D080400047AC493FC85B798" ++ d1 ++ d2
      ++ decode32 "702A2630344B07878F692857385F6829"
      ++ decode32 "1644FCA83EDE58D64683C53899F40AE4"
      ++ decode32 "D10560C1F76AC151BF0732E6760052A4")
    928 96 "D10560C1F76AC151BF0732E6760052A4"
    (decode32 "D10560C1F76AC151BF0732E6760052A4") rfl
    (by simp [List.length_append, lc0, lc48, lc64, lcD, e1, e2]) (by omega)
    (by decide) (by decide), Option.some_bind]
  rw [writeHexE_step _
    ([] ++ decode32 "11EEE82A3D080400047AC493FC85B798" ++ d1 ++ d2
      ++ decode32 "702A2630344B07878F692857385F6829"
      ++ decode32 "1644FCA83EDE58D64683C53899F40AE4"
      ++ decode32 "D10560C1F76AC151BF0732E6760052A4"
      ++ decode32 "D10560C1F76AC151BF0732E6760052A4")
    912 112 "702A2630344B61E789692857385F6829"
    (decode32 "702A2630344B61E789692857385F6829") rfl
    (by simp [List.length_append, lc0, lc48, lc64, lcD, e1, e2]) (by omega)
    (by decide) (by decide), Option.some_bind]
  rw [writeHexE_step _
    ([] ++ decode32 "11EEE82A3D080400047AC493FC85B798" ++ d1 ++ d2
      ++ decode32 "702A2630344B07878F692857385F6829"
      ++ decode32 "1644FCA83EDE58D64683C53899F40AE4"
      ++ decode32 "D10560C1F76AC151BF0732E6760052A4"
      ++ decode32 "D10560C1F76AC151BF0732E6760052A4"
      ++ decode32 "702A2630344B61E789692857385F6829")
    896 128 "D10560C1F76AC151BF0732E6760052A4"
    (decode32 "D10560C1F76AC151BF0732E6760052A4") rfl
    (by simp [List.length_append, lc0, lc48, lc64, lcD, lc112, e1, e2]) (by omega)
    (by decide) (by decide), Option.some_bind]
  rw [writeHexE_step _
    ([] ++ decode32 "11EEE82A3D080400047AC493FC85B798" ++ d1 ++ d2
      ++ decode32 "702A2630344B07878F692857385F6829"
      ++ decode32 "1644FCA83EDE58D64683C53899F40AE4"
      ++ decode32 "D10560C1F76AC151BF0732E6760052A4"
      ++ decode32 "D10560C1F76AC151BF0732E6760052A4"
      ++ decode32 "702A2630344B61E789692857385F6829"
      ++ decode32 "D10560C1F76AC151BF0732E6760052A4")
    880 144 "D10560C1F76AC151BF0732E6760052A4"
    (decode32 "D10560C1F76AC151BF0732E6760052A4") rfl
    (by simp [List.length_append, lc0, lc48, lc64, lcD, lc112, e1, e2]) (by omega)
    (by decide) (by decide), Option.some_bind]
  rw [writeHexE_step _
    ([] ++ decode32 "11EEE82A3D080400047AC493FC85B798" ++ d1 ++ d2
      ++ decode32 "702A2630344B07878F692857385F6829"
      ++ decode32 "1644FCA83EDE58D64683C53899F40AE4"
      ++ decode32 "D10560C1F76AC151BF0732E6760052A4"
      ++ decode32 "D10560C1F76AC151BF0732E6760052A4"
      ++ decode32 "702A2630344B61E789692857385F6829"
      ++ decode32 "D10560C1F76AC151BF0732E6760052A4"
      ++ decode32 "D10560C1F76AC151BF0732E6760052A4")
    864 160 b3 d3 rfl
    (by simp [List.length_append, lc0, lc48, lc64, lcD, lc112, e1, e2]) (by omega)
    hl3 hd3, Option.some_bind]
  rw [writeHexE_step _
    ([] ++ decode32 "11EEE82A3D080400047AC493FC85B798" ++ d1 ++ d2
      ++ decode32 "702A2630344B07878F692857385F6829"
      ++ decode32 "1644FCA83EDE58D64683C53899F40AE4"
      ++ decode32 "D10560C1F76AC151BF0732E6760052A4"
      ++ decode32 "D10560C1F76AC151BF0732E6760052A4"
      ++ decode32 "702A2630344B61E789692857385F6829"
      ++ decode32 "D10560C1F76AC151BF0732E6760052A4"
      ++ decode32 "D10560C1F76AC151BF0732E6760052A4" ++ d3)
    848 176 "702A2630344B34B78C692857385F6829"
    (decode32 "702A2630344B34B78C692857385F6829") rfl
    (by simp [List.length_append, lc0, lc48, lc64, lcD, lc112, e1, e2, e3])
    (by omega) (by decide) (by decide), Option.some_bind]
  rw [fillSectors_loop 13 3
    ([] ++ decode32 "11EEE82A3D080400047AC493FC85B798" ++ d1 ++ d2
      ++ decode32 "702A2630344B07878F692857385F6829"
      ++ decode32 "1644FCA83EDE58D64683C53899F40AE4"
      ++ decode32 "D10560C1F76AC151BF0732E6760052A4"
      ++ decode32 "D10560C1F76AC151BF0732E6760052A4"
      ++ decode32 "702A2630344B61E789692857385F6829"
      ++ decode32 "D10560C1F76AC151BF0732E6760052A4"
      ++ decode32 "D10560C1F76AC151BF0732E6760052A4" ++ d3
      ++ decode32 "702A2630344B34B78C692857385F6829")
    832
    (by simp [List.length_append, lc0, lc48, lc64, lcD, lc112, lc176, e1, e2, e3])
    (by omega)]
  simp only [tmplBlk0, tmplMid112, tmplTail848, List.append_assoc, List.nil_append]

theorem validHex32_decode (s : String) (h : validHex32 s) :
    ∃ ds, decodePairs s.data = some ds ∧ ds.length = 16 := by
  obtain ⟨hlen, hv⟩ := h
  have hdl : s.data.length = 32 := hlen
  obtain ⟨ds, hds⟩ := decodePairs_of_valid s.data hv (by omega)
  refine ⟨ds, hds, ?_⟩
  have := decodePairs_length s.data ds hds
  omega

theorem hexDigUp_isHexDigit : ∀ k, k < 16 → isHexDigit (hexDigUp k) = true := by
  decide

theorem flatMap_byteHex_valid {α : Type} : ∀ (l : List α) (g : α → Nat),
    (∀ x ∈ l, g x < 256) →
    (l.flatMap (fun x => byteHexChars (g x))).length = 2 * l.length ∧
    ∀ c ∈ l.flatMap (fun x => byteHexChars (g x)), isHexDigit c = true
  | [], _, _ => ⟨rfl, by simp⟩
  | a :: rest, g, h => by
    obtain ⟨ihl, ihv⟩ := flatMap_byteHex_valid rest g (fun x hx => h x (by simp [hx]))
    have ha : g a < 256 := h a (by simp)
    constructor
    · simp only [List.flatMap_cons, List.length_append, List.length_cons, ihl]
      rw [byteHexChars_eq (g a) ha]
      simp only [List.length_cons, List.length_nil]
      omega
    · intro c hc
      simp only [List.flatMap_cons, List.mem_append] at hc
      rcases hc with hc | hc
      · rw [byteHexChars_eq (g a) ha] at hc
        have hcc : c = hexDigUp (g a / 16) ∨ c = hexDigUp (g a % 16) := by
          simpa using hc
        rcases hcc with rfl | rfl
        · exact hexDigUp_isHexDigit _ (by omega)
        · exact hexDigUp_isHexDigit _ (by omega)
      · exact ihv c hc

theorem generate_random_block_data_valid (rand : Nat → Nat)
    (h : ∀ i, i < 16 → rand i < 256) :
    validHex32 (generate_random_block_data rand) := by
  have hmem : ∀ x ∈ List.range 16, rand x < 256 :=
    fun x hx => h x (List.mem_range.mp hx)
  obtain ⟨hl, hv⟩ := flatMap_byteHex_valid (List.range 16) rand hmem
  constructor
  · show ((List.range 16).flatMap (fun i => byteHexChars (rand i))).length = 32
    rw [hl, List.length_range]
  · exact hv

theorem natDecGo_small (fuel n : Nat) (h : n < 10) :
    natDecGo fuel n = [hexDigUp n] := by
  cases fuel
  · rfl
  · simp [natDecGo, h]

theorem natDecChars_lt_10 (n : Nat) (h : n < 10) : natDecChars n = [hexDigUp n] := by
  rw [natDecChars]
  exact natDecGo_small n n h

theorem natDec_ge_aux (n : Nat) (h : 10 ≤ n) :
    natDecChars n = natDecGo (n - 1) (n / 10) ++ [hexDigUp (n % 10)] := by
  obtain ⟨m, rfl⟩ : ∃ m, n = m + 1 := ⟨n - 1, by omega⟩
  show natDecGo (m + 1) (m + 1) = _
  simp [natDecGo, show ¬ (m + 1 < 10) by omega]

theorem natDecGo_eq : ∀ (n fuel : Nat), n ≤ fuel → natDecGo fuel n = natDecChars n := by
  intro n
  induction n using Nat.strong_induction_on with
  | _ n ih =>
    intro fuel hf
    by_cases h10 : n < 10
    · rw [natDecGo_small fuel n h10, natDecChars, natDecGo_small n n h10]
    · have hdiv : n / 10 < n := Nat.div_lt_self (by omega) (by omega)
      obtain ⟨f, rfl⟩ : ∃ f, fuel = f + 1 := ⟨fuel - 1, by omega⟩
      rw [show natDecGo (f + 1) n = natDecGo f (n / 10) ++ [hexDigUp (n % 10)] by
        simp [natDecGo, h10]]
      rw [natDec_ge_aux n (by omega)]
      congr 1
      rw [ih (n / 10) hdiv f (by omega), ih (n / 10) hdiv (n - 1) (by omega)]

theorem natDecChars_ge_10 (n : Nat) (h : 10 ≤ n) :
    natDecChars n = natDecChars (n / 10) ++ [hexDigUp (n % 10)] := by
  have hdiv : n / 10 < n := Nat.div_lt_self (by omega) (by omega)
  rw [natDec_ge_aux n h, natDecGo_eq (n / 10) (n - 1) (by omega)]

theorem natDecChars_digits : ∀ n : Nat, ∀ c ∈ natDecChars n,
    48 ≤ c.toNat ∧ c.toNat ≤ 57 := by
  intro n
  induction n using Nat.strong_induction_on with
  | _ n ih =>
    intro c hc
    have hfact : ∀ k, k < 10 → 48 ≤ (hexDigUp k).toNat ∧ (hexDigUp k).toNat ≤ 57 := by
      decide
    by_cases h10 : n < 10
    · rw [natDecChars_lt_10 n h10] at hc
      have hc2 : c = hexDigUp n := by simpa using hc
      subst hc2
      exact hfact n h10
    · rw [natDecChars_ge_10 n (by omega)] at hc
      rcases List.mem_append.mp hc with hc2 | hc2
      · exact ih (n / 10) (Nat.div_lt_self (by omega) (by omega)) c hc2
      · have hc3 : c = hexDigUp (n % 10) := by simpa using hc2
        subst hc3
        exact hfact (n % 10) (by omega)

theorem natDecChars_len_pow : ∀ (k n : Nat), 10 ^ k ≤ n → n < 10 ^ (k + 1) →
    (natDecChars n).length = k + 1 := by
  intro k
  induction k with
  | zero =>
    intro n h1 h2
    simp only [pow_zero, pow_one] at h1 h2
    rw [natDecChars_lt_10 n (by omega)]
    rfl
  | succ k ih =>
    intro n h1 h2
    have hp : (10 : Nat) ^ (k + 1) = 10 ^ k * 10 := pow_succ 10 k
    have hp2 : (10 : Nat) ^ (k + 1 + 1) = 10 ^ (k + 1) * 10 := pow_succ 10 (k + 1)
    have h10k : 0 < (10 : Nat) ^ k := pow_pos (by omega) k
    have hA : 1 * 10 ≤ 10 ^ k * 10 := Nat.mul_le_mul_right 10 h10k
    have hn10 : 10 ≤ n := by omega
    rw [natDecChars_ge_10 n hn10, List.length_append]
    have hdivlow : 10 ^ k ≤ n / 10 := by
      rw [Nat.le_div_iff_mul_le (by omega)]
      omega
    have hdivhigh : n / 10 < 10 ^ (k + 1) := by
      rw [Nat.div_lt_iff_lt_mul (by omega)]
      omega
    rw [ih (n / 10) hdivlow hdivhigh]
    simp

theorem generate_random_suffix_len (r : Nat) (h1 : 100000 ≤ r)
    (h2 : r ≤ 999999) : (natDecChars r).length = 6 := by
  have := natDecChars_len_pow 5 r (by norm_num; omega) (by norm_num; omega)
  omega

theorem generate_sector2_block3_valid (date suffix : String)
    (hd : ∀ c ∈ date.data, c.toNat < 256) (hs : ∀ c ∈ suffix.data, c.toNat < 256)
    (hlen : date.data.length + suffix.data.length = 14) :
    validHex32 (generate_sector2_block3 date suffix) := by
  have hmem : ∀ c ∈ (date ++ "BB" ++ suffix).data, c.toNat < 256 := by
    intro c hc
    simp only [String.data_append] at hc
    rcases List.mem_append.mp hc with hc2 | hc2
    · rcases List.mem_append.mp hc2 with hc3 | hc3
      · exact hd c hc3
      · have hcb : c = 'B' := by simpa using hc3
        subst hcb
        decide
    · exact hs c hc2
  obtain ⟨hl, hv⟩ := flatMap_byteHex_valid ((date ++ "BB" ++ suffix).data)
    Char.toNat hmem
  constructor
  · show ((date ++ "BB" ++ suffix).data.flatMap (fun c => byteHexChars c.toNat)).length = 32
    rw [hl]
    simp only [String.data_append, List.length_append, List.length_cons,
      List.length_nil]
    omega
  · exact hv

theorem tmplBlk0_len : tmplBlk0.length = 16 := by decide

theorem tmplMid112_len : tmplMid112.length = 112 := by decide

theorem tmplTail848_len : tmplTail848.length = 848 := by decide

theorem dec48_len : (decode32 "702A2630344B07878F692857385F6829").length = 16 := by
  decide

theorem dec64_len : (decode32 "1644FCA83EDE58D64683C53899F40AE4").length = 16 := by
  decide

theorem decD_len : (decode32 "D10560C1F76AC151BF0732E6760052A4").length = 16 := by
  decide

theorem dec112_len : (decode32 "702A2630344B61E789692857385F6829").length = 16 := by
  decide

theorem dec176_len : (decode32 "702A2630344B34B78C692857385F6829").length = 16 := by
  decide

/-- Suffixes of the decomposed image at the section boundaries 48, 64, 128,
176 and 192. -/
theorem image_drops (d1 d2 d3 : List Nat) (e1 : d1.length = 16)
    (e2 : d2.length = 16) (e3 : d3.length = 16) :
    (tmplBlk0 ++ (d1 ++ (d2 ++ (tmplMid112 ++ (d3 ++ tmplTail848))))).drop 48
        = tmplMid112 ++ (d3 ++ tmplTail848) ∧
    (tmplBlk0 ++ (d1 ++ (d2 ++ (tmplMid112 ++ (d3 ++ tmplTail848))))).drop 64
        = decode32 "1644FCA83EDE58D64683C53899F40AE4"
          ++ (decode32 "D10560C1F76AC151BF0732E6760052A4"
          ++ (decode32 "D10560C1F76AC151BF0732E6760052A4"
          ++ (decode32 "702A2630344B61E789692857385F6829"
          ++ (decode32 "D10560C1F76AC151BF0732E6760052A4"
          ++ (decode32 "D10560C1F76AC151BF0732E6760052A4"
          ++ (d3 ++ tmplTail848)))))) ∧
    (tmplBlk0 ++ (d1 ++ (d2 ++ (tmplMid112 ++ (d3 ++ tmplTail848))))).drop 128
        = decode32 "D10560C1F76AC151BF0732E6760052A4"
          ++ (decode32 "D10560C1F76AC151BF0732E6760052A4"
          ++ (d3 ++ tmplTail848)) ∧
    (tmplBlk0 ++ (d1 ++ (d2 ++ (tmplMid112 ++ (d3 ++ tmplTail848))))).drop 176
        = tmplTail848 ∧
    (tmplBlk0 ++ (d1 ++ (d2 ++ (tmplMid112 ++ (d3 ++ tmplTail848))))).drop 192
        = (List.replicate 13 sectorTailBytes).flatten := by
  have h48 : (tmplBlk0 ++ (d1 ++ (d2 ++ (tmplMid112 ++ (d3 ++ tmplTail848))))).drop 48
      = tmplMid112 ++ (d3 ++ tmplTail848) := by
    rw [show tmplBlk0 ++ (d1 ++ (d2 ++ (tmplMid112 ++ (d3 ++ tmplTail848))))
        = (tmplBlk0 ++ d1 ++ d2) ++ (tmplMid112 ++ (d3 ++ tmplTail848)) from by
      simp [List.append_assoc]]
    exact List.drop_left' (by simp [List.length_append, tmplBlk0_len, e1, e2])
  have h64 : (tmplBlk0 ++ (d1 ++ (d2 ++ (tmplMid112 ++ (d3 ++ tmplTail848))))).drop 64
      = decode32 "1644FCA83EDE58D64683C53899F40AE4"
        ++ (decode32 "D10560C1F76AC151BF0732E6760052A4"
        ++ (decode32 "D10560C1F76AC151BF0732E6760052A4"
        ++ (decode32 "702A2630344B61E789692857385F6829"
        ++ (decode32 "D10560C1F76AC151BF0732E6760052A4"
        ++ (decode32 "D10560C1F76AC151BF0732E6760052A4"
        ++ (d3 ++ tmplTail848)))))) := by
    rw [show (64 : Nat) = 48 + 16 from rfl, ← List.drop_drop, h48]
    rw [show tmplMid112 ++ (d3 ++ tmplTail848)
        = decode32 "702A2630344B07878F692857385F6829"
          ++ (decode32 "1644FCA83EDE58D64683C53899F40AE4"
          ++ (decode32 "D10560C1F76AC151BF0732E6760052A4"
          ++ (decode32 "D10560C1F76AC151BF0732E6760052A4"
          ++ (decode32 "702A2630344B61E789692857385F6829"
          ++ (decode32 "D10560C1F76AC151BF0732E6760052A4"
          ++ (decode32 "D10560C1F76AC151BF0732E6760052A4"
          ++ (d3 ++ tmplTail848))))))) from by
      simp [tmplMid112, List.append_assoc]]
    exact List.drop_left' dec48_len
  have h128 : (tmplBlk0 ++ (d1 ++ (d2 ++ (tmplMid112 ++ (d3 ++ tmplTail848))))).drop 128
      = decode32 "D10560C1F76AC151BF0732E6760052A4"
        ++ (decode32 "D10560C1F76AC151BF0732E6760052A4"
        ++ (d3 ++ tmplTail848)) := by
    rw [show (128 : Nat) = 64 + 64 from rfl, ← List.drop_drop, h64]
    rw [show decode32 "1644FCA83EDE58D64683C53899F40AE4"
        ++ (decode32 "D10560C1F76AC151BF0732E6760052A4"
        ++ (decode32 "D10560C1F76AC151BF0732E6760052A4"
        ++ (decode32 "702A2630344B61E789692857385F6829"
        ++ (decode32 "D10560C1F76AC151BF0732E6760052A4"
        ++ (decode32 "D10560C1F76AC151BF0732E6760052A4"
        ++ (d3 ++ tmplTail848))))))
        = (decode32 "1644FCA83EDE58D64683C53899F40AE4"
          ++ decode32 "D10560C1F76AC151BF0732E6760052A4"
          ++ decode32 "D10560C1F76AC151BF0732E6760052A4"
          ++ decode32 "702A2630344B61E789692857385F6829")
          ++ (decode32 "D10560C1F76AC151BF0732E6760052A4"
          ++ (decode32 "D10560C1F76AC151BF0732E6760052A4"
          ++ (d3 ++ tmplTail848))) from by
      simp [List.append_assoc]]
    exact List.drop_left'
      (by simp [List.length_append, dec64_len, decD_len, dec112_len])
  have h176 : (tmplBlk0 ++ (d1 ++ (d2 ++ (tmplMid112 ++ (d3 ++ tmplTail848))))).drop 176
      = tmplTail848 := by
    rw [show (176 : Nat) = 128 + 48 from rfl, ← List.drop_drop, h128]
    rw [show decode32 "D10560C1F76AC151BF0732E6760052A4"
        ++ (decode32 "D10560C1F76AC151BF0732E6760052A4"
        ++ (d3 ++ tmplTail848))
        = (decode32 "D10560C1F76AC151BF0732E6760052A4"
          ++ decode32 "D10560C1F76AC151BF0732E6760052A4" ++ d3)
          ++ tmplTail848 from by
      simp [List.append_assoc]]
    exact List.drop_left' (by simp [List.length_append, decD_len, e3])
  have h192 : (tmplBlk0 ++ (d1 ++ (d2 ++ (tmplMid112 ++ (d3 ++ tmplTail848))))).drop 192
      = (List.replicate 13 sectorTailBytes).flatten := by
    rw [show (192 : Nat) = 176 + 16 from rfl, ← List.drop_drop, h176]
    show (decode32 "702A2630344B34B78C692857385F6829"
      ++ (List.replicate 13 sectorTailBytes).flatten).drop 16 = _
    exact List.drop_left' dec176_len
  exact ⟨h48, h64, h128, h176, h192⟩

/-! ## Claim C7 -/

/-- C7: for every choice of the three (valid 32-hex) variable blocks, the
byte ranges [0:16), [48:64), [64:128), [128:144), [176:192), and every byte
from 192 on (all blocks of sectors 3-15) are byte-for-byte the fixed
hard-coded template constants; moreover the whole fixed complement of the
variable windows — [0:16), [48:160) and [176:1024) — equals the same
input-independent constants for every choice, so the variable inputs affect
only offsets [16:48) and [160:176). -/
theorem C7_fixed_template (b1 b2 b3 : String) (h1 : validHex32 b1)
    (h2 : validHex32 b2) (h3 : validHex32 b3) :
    ∃ img, generate_binary_mfd_resolved b1 b2 b3 = some img ∧
      img.take 16 = tmplBlk0 ∧
      (img.drop 48).take 16 = decode32 "702A2630344B07878F692857385F6829" ∧
      (img.drop 64).take 64
        = decode32 "1644FCA83EDE58D64683C53899F40AE4"
          ++ decode32 "D10560C1F76AC151BF0732E6760052A4"
          ++ decode32 "D10560C1F76AC151BF0732E6760052A4"
          ++ decode32 "702A2630344B61E789692857385F6829" ∧
      (img.drop 128).take 16 = decode32 "D10560C1F76AC151BF0732E6760052A4" ∧
      (img.drop 176).take 16 = decode32 "702A2630344B34B78C692857385F6829" ∧
      img.drop 192 = (List.replicate 13 sectorTailBytes).flatten ∧
      (img.drop 48).take 112 = tmplMid112 ∧
      img.drop 176 = tmplTail848 := by
  obtain ⟨d1, hd1, e1⟩ := validHex32_decode b1 h1
  obtain ⟨d2, hd2, e2⟩ := validHex32_decode b2 h2
  obtain ⟨d3, hd3, e3⟩ := validHex32_decode b3 h3
  obtain ⟨h48, h64, h128, h176, h192⟩ := image_drops d1 d2 d3 e1 e2 e3
  refine ⟨_, generate_binary_mfd_decomp b1 b2 b3 d1 d2 d3 h1.1 hd1 h2.1 hd2 h3.1 hd3,
    ?_, ?_, ?_, ?_, ?_, ?_, ?_, ?_⟩
  · exact List.take_left' tmplBlk0_len
  · rw [h48]
    rw [show tmplMid112 ++ (d3 ++ tmplTail848)
        = decode32 "702A2630344B07878F692857385F6829"
          ++ (decode32 "1644FCA83EDE58D64683C53899F40AE4"
          ++ (decode32 "D10560C1F76AC151BF0732E6760052A4"
          ++ (decode32 "D10560C1F76AC151BF0732E6760052A4"
          ++ (decode32 "702A2630344B61E789692857385F6829"
          ++ (decode32 "D10560C1F76AC151BF0732E6760052A4"
          ++ (decode32 "D10560C1F76AC151BF0732E6760052A4"
          ++ (d3 ++ tmplTail848))))))) from by
      simp [tmplMid112, List.append_assoc]]
    exact List.take_left' dec48_len
  · rw [h64]
    rw [show decode32 "1644FCA83EDE58D64683C53899F40AE4"
        ++ (decode32 "D10560C1F76AC151BF0732E6760052A4"
        ++ (decode32 "D10560C1F76AC151BF0732E6760052A4"
        ++ (decode32 "702A2630344B61E789692857385F6829"
        ++ (decode32 "D10560C1F76AC151BF0732E6760052A4"
        ++ (decode32 "D10560C1F76AC151BF0732E6760052A4"
        ++ (d3 ++ tmplTail848))))))
        = (decode32 "1644FCA83EDE58D64683C53899F40AE4"
          ++ decode32 "D10560C1F76AC151BF0732E6760052A4"
          ++ decode32 "D10560C1F76AC151BF0732E6760052A4"
          ++ decode32 "702A2630344B61E789692857385F6829")
          ++ (decode32 "D10560C1F76AC151BF0732E6760052A4"
          ++ (decode32 "D10560C1F76AC151BF0732E6760052A4"
          ++ (d3 ++ tmplTail848))) from by
      simp [List.append_assoc]]
    exact List.take_left'
      (by simp [List.length_append, dec64_len, decD_len, dec112_len])
  · rw [h128]
    exact List.take_left' decD_len
  · rw [h176]
    show (decode32 "702A2630344B34B78C692857385F6829"
      ++ (List.replicate 13 sectorTailBytes).flatten).take 16 = _
    exact List.take_left' dec176_len
  · exact h192
  · rw [h48]
    exact List.take_left' tmplMid112_len
  · exact h176

/-- C7 witness: the fixed-template properties at one concrete choice of the
three variable blocks. -/
theorem C7_fixed_template_witness :
    ∃ img, generate_binary_mfd_resolved "00112233445566778899AABBCCDDEEFF"
        "00112233445566778899AABBCCDDEEFF" "00112233445566778899AABBCCDDEEFF"
      = some img ∧
      img.take 16 = tmplBlk0 ∧
      (img.drop 48).take 16 = decode32 "702A2630344B07878F692857385F6829" ∧
      (img.drop 64).take 64
        = decode32 "1644FCA83EDE58D64683C53899F40AE4"
          ++ decode32 "D10560C1F76AC151BF0732E6760052A4"
          ++ decode32 "D10560C1F76AC151BF0732E6760052A4"
          ++ decode32 "702A2630344B61E789692857385F6829" ∧
      (img.drop 128).take 16 = decode32 "D10560C1F76AC151BF0732E6760052A4" ∧
      (img.drop 176).take 16 = decode32 "702A2630344B34B78C692857385F6829" ∧
      img.drop 192 = (List.replicate 13 sectorTailBytes).flatten ∧
      (img.drop 48).take 112 = tmplMid112 ∧
      img.drop 176 = tmplTail848 :=
  C7_fixed_template "00112233445566778899AABBCCDDEEFF"
    "00112233445566778899AABBCCDDEEFF" "00112233445566778899AABBCCDDEEFF"
    (by constructor <;> decide) (by constructor <;> decide)
    (by constructor <;> decide)

/-! ## Claim C6 -/

/-- C6, counterexample: the open-trailer constant printed in the spec's
file-format table, `FFFFFFFFFFFF0780 69FFFFFFFFFFFF`, has only thirty hex
digits — fifteen bytes — and the sector-3 trailer block (bytes 240-255) of
a concretely built image does not equal it: the claim's "16 bytes equal the
fixed open-trailer constant" is false as stated. -/
theorem C6_cex_spec_trailer :
    specOpenTrailer.length = 15 ∧
    ∃ img, generate_binary_mfd_resolved "00000000000000000000000000000000"
        "00000000000000000000000000000000" "00000000000000000000000000000000"
      = some img ∧
      (img.drop 240).take 16 ≠ specOpenTrailer := by
  refine ⟨by decide, _, generate_binary_mfd_decomp _ _ _
    (List.replicate 16 0) (List.replicate 16 0) (List.replicate 16 0)
    (by decide) (by decide) (by decide) (by decide) (by decide) (by decide), ?_⟩
  decide

/-- C6 (amended): in every image built from valid variable blocks, each of
sectors 3 through 15 consists of three all-zero 16-byte blocks followed by
one trailer block whose 16 bytes are
`FF FF FF FF FF FF FF 07 80 69 FF FF FF FF FF FF` — the 32-hex-digit
constant `FFFFFFFFFFFFFF078069FFFFFFFFFFFF` written by the code, one `FF`
byte longer than the 15-byte constant printed in the spec's table. -/
theorem C6_sector_blocks (b1 b2 b3 : String) (h1 : validHex32 b1)
    (h2 : validHex32 b2) (h3 : validHex32 b3) :
    ∃ img, generate_binary_mfd_resolved b1 b2 b3 = some img ∧
      codeTrailer = [0xFF, 0xFF, 0xFF, 0xFF, 0xFF, 0xFF, 0xFF, 0x07, 0x80,
        0x69, 0xFF, 0xFF, 0xFF, 0xFF, 0xFF, 0xFF] ∧
      ∀ s, s < 16 → 3 ≤ s →
        (img.drop (s * 64)).take 48 = List.replicate 48 0 ∧
        (img.drop (s * 64 + 48)).take 16 = codeTrailer := by
  obtain ⟨d1, hd1, e1⟩ := validHex32_decode b1 h1
  obtain ⟨d2, hd2, e2⟩ := validHex32_decode b2 h2
  obtain ⟨d3, hd3, e3⟩ := validHex32_decode b3 h3
  obtain ⟨h48, h64, h128, h176, h192⟩ := image_drops d1 d2 d3 e1 e2 e3
  refine ⟨_, generate_binary_mfd_decomp b1 b2 b3 d1 d2 d3 h1.1 hd1 h2.1 hd2 h3.1 hd3,
    by decide, ?_⟩
  intro s hs16 hs3
  obtain ⟨k, rfl⟩ : ∃ k, s = k + 3 := ⟨s - 3, by omega⟩
  have hk13 : k < 13 := by omega
  clear hs16 hs3
  rw [(by omega : (k + 3) * 64 + 48 = 192 + (k * 64 + 48))]
  rw [(by omega : (k + 3) * 64 = 192 + k * 64)]
  rw [← List.drop_drop, ← List.drop_drop, h192]
  revert k
  decide

/-- C6 witness: the amended per-sector layout at one concrete choice of the
variable blocks. -/
theorem C6_sector_blocks_witness :
    ∃ img, generate_binary_mfd_resolved "0123456789ABCDEF0123456789ABCDEF"
        "0123456789ABCDEF0123456789ABCDEF" "0123456789ABCDEF0123456789ABCDEF"
      = some img ∧
      codeTrailer = [0xFF, 0xFF, 0xFF, 0xFF, 0xFF, 0xFF, 0xFF, 0x07, 0x80,
        0x69, 0xFF, 0xFF, 0xFF, 0xFF, 0xFF, 0xFF] ∧
      ∀ s, s < 16 → 3 ≤ s →
        (img.drop (s * 64)).take 48 = List.replicate 48 0 ∧
        (img.drop (s * 64 + 48)).take 16 = codeTrailer :=
  C6_sector_blocks "0123456789ABCDEF0123456789ABCDEF"
    "0123456789ABCDEF0123456789ABCDEF" "0123456789ABCDEF0123456789ABCDEF"
    (by constructor <;> decide) (by constructor <;> decide)
    (by constructor <;> decide)

/-! ## Claim C8 -/

/-- C8: `generate_binary_mfd` returns a buffer of exactly 1024 bytes for
every combination of supplied (valid 32-hex) and omitted variable blocks —
including all three omitted, in which case the defaults (random bytes from
`randint(0,255)`, today's 8-character date, and a random 6-digit suffix)
are generated and used. -/
theorem C8_always_1024 (rand1 rand2 : Nat → Nat) (dateNow : String)
    (randSuffix : Nat) (b1 b2 b3 : Option String)
    (hr1 : ∀ i, i < 16 → rand1 i < 256) (hr2 : ∀ i, i < 16 → rand2 i < 256)
    (hdlen : dateNow.length = 8) (hdchars : ∀ c ∈ dateNow.data, c.toNat < 256)
    (hsuf1 : 100000 ≤ randSuffix) (hsuf2 : randSuffix ≤ 999999)
    (hb1 : ∀ s, b1 = some s → validHex32 s)
    (hb2 : ∀ s, b2 = some s → validHex32 s)
    (hb3 : ∀ s, b3 = some s → validHex32 s) :
    ∃ img, generate_binary_mfd rand1 rand2 dateNow randSuffix b1 b2 b3 = some img
      ∧ img.length = 1024 := by
  have hv1 : validHex32 (b1.getD (generate_random_block_data rand1)) := by
    cases b1 with
    | none => exact generate_random_block_data_valid rand1 hr1
    | some s => exact hb1 s rfl
  have hv2 : validHex32 (b2.getD (generate_random_block_data rand2)) := by
    cases b2 with
    | none => exact generate_random_block_data_valid rand2 hr2
    | some s => exact hb2 s rfl
  have hv3 : validHex32 (b3.getD
      (generate_sector2_block3 dateNow (generate_random_suffix randSuffix))) := by
    cases b3 with
    | none =>
      show validHex32 (generate_sector2_block3 dateNow
        (generate_random_suffix randSuffix))
      apply generate_sector2_block3_valid
      · exact hdchars
      · intro c hc
        have hdig := natDecChars_digits randSuffix c hc
        omega
      · have h6 : (natDecChars randSuffix).length = 6 :=
          generate_random_suffix_len randSuffix hsuf1 hsuf2
        have h8 : dateNow.data.length = 8 := hdlen
        show dateNow.data.length + (natDecChars randSuffix).length = 14
        omega
    | some s => exact hb3 s rfl
  obtain ⟨d1, hd1, e1⟩ := validHex32_decode _ hv1
  obtain ⟨d2, hd2, e2⟩ := validHex32_decode _ hv2
  obtain ⟨d3, hd3, e3⟩ := validHex32_decode _ hv3
  refine ⟨_, generate_binary_mfd_decomp _ _ _ d1 d2 d3 hv1.1 hd1 hv2.1 hd2 hv3.1 hd3,
    ?_⟩
  simp [List.length_append, e1, e2, e3, tmplBlk0_len, tmplMid112_len,
    tmplTail848_len]

/-- C8 witness: all three blocks omitted, with concrete draws and date. -/
theorem C8_always_1024_witness :
    ∃ img, generate_binary_mfd (fun _ => 0) (fun _ => 255) "20240315" 654321
      none none none = some img ∧ img.length = 1024 :=
  C8_always_1024 (fun _ => 0) (fun _ => 255) "20240315" 654321 none none none
    (fun _ _ => by show (0 : Nat) < 256; decide)
    (fun _ _ => by show (255 : Nat) < 256; decide) (by decide) (by decide)
    (by decide) (by decide)
    (fun s h => Option.noConfusion h) (fun s h => Option.noConfusion h)
    (fun s h => Option.noConfusion h)

/-! ## Claim C10 -/

/-- C10: when the staleness-triggered re-query fails (exception) or its
output contains no `"UID (NFCID1)"` line — including the
`"No NFC device found"` sentinel — `get_current_uid` leaves both
`current_uid` and `last_update_time` untouched and returns the previously
stored, possibly stale, UID; the re-query can replace the stored UID only
with a freshly parsed one, never clear it. -/
theorem C10_requery_frame (st : MonitorView) (t : Int) (q : Option QueryResult)
    (hstale : t - st.last_update_time > update_interval)
    (hq : q = none ∨ ∃ r, q = some r ∧
      (r.returncode ≠ 0 ∨ findUIDLine (splitOnChar '\n' r.stdout.data) = none)) :
    get_current_uid st t q = (st, st.current_uid) := by
  unfold get_current_uid
  rw [if_pos hstale]
  rcases hq with rfl | ⟨r, rfl, hr⟩
  · rfl
  · dsimp only
    by_cases hrc : r.returncode = 0
    · rcases hr with hrc2 | hfind
      · exact absurd hrc hrc2
      · rw [if_pos hrc, hfind]
    · rw [if_neg hrc]

/-- C10 witness: a stale state, a clean-exit re-query whose output is the
`"No NFC device found"` sentinel. -/
theorem C10_requery_frame_witness :
    get_current_uid ⟨"OLDUID", 0⟩ 200 (some ⟨0, "No NFC device found\n"⟩)
      = (⟨"OLDUID", 0⟩, "OLDUID") :=
  C10_requery_frame ⟨"OLDUID", 0⟩ 200 (some ⟨0, "No NFC device found\n"⟩)
    (by decide)
    (Or.inr ⟨⟨0, "No NFC device found\n"⟩, rfl, Or.inr (by decide)⟩)

/-! ## Claim C1 -/

theorem write_retry_loop_success (outs : Nat → String) (k0 : Nat)
    (hs : attemptSucceeds (outs k0) = true)
    (hmin : ∀ j, j < k0 → attemptSucceeds (outs j) = false) :
    ∀ (remaining k d : Nat), k ≤ k0 → k0 < k + remaining →
    write_retry_loop outs remaining k d = ⟨true, k0 + 1, d + 5 * (k0 - k)⟩ := by
  intro remaining
  induction remaining with
  | zero => intro k d hk hlt; omega
  | succ rem ih =>
    intro k d hk hlt
    by_cases hkk : k = k0
    · subst hkk
      simp only [write_retry_loop]
      rw [if_pos hs]
      simp
    · have hklt : k < k0 := by omega
      have hrem : rem ≠ 0 := by omega
      simp only [write_retry_loop]
      rw [if_neg (by simp [hmin k hklt]), if_neg hrem]
      rw [ih (k + 1) (d + 5) (by omega) (by omega)]
      congr 1
      omega

theorem write_retry_loop_bounded_fail (outs : Nat → String) (M : Nat)
    (hall : ∀ j, j < M → attemptSucceeds (outs j) = false) :
    ∀ (remaining k d : Nat), k + remaining ≤ M →
    write_retry_loop outs remaining k d
      = ⟨false, k + remaining, d + 5 * (remaining - 1)⟩ := by
  intro remaining
  induction remaining with
  | zero => intro k d _; simp [write_retry_loop]
  | succ rem ih =>
    intro k d hkr
    simp only [write_retry_loop]
    rw [if_neg (by simp [hall k (by omega)])]
    by_cases hrem : rem = 0
    · subst hrem
      rw [if_pos rfl]
      simp
    · rw [if_neg hrem]
      rw [ih (k + 1) (d + 5) (by omega)]
      congr 1 <;> omega

/-- C1 (writer layer modelled from spec §4.4, the method being absent from
src/main.py): `write_tag_from_file` returns `true` exactly when some attempt
within the first `maxRetries` has both `"Done"` and `"blocks written"` in
the captured output — returning right after the first such attempt, having
waited the fixed 5-unit delay once per preceding failed attempt — and it
returns `false` only after exactly `maxRetries` attempts, with the constant
inter-attempt delay observed between consecutive attempts. -/
theorem C1_write_retries (outs : Nat → String) (maxRetries : Nat) :
    ((write_tag_from_file outs maxRetries).success = true ↔
      ∃ k, k < maxRetries ∧ attemptSucceeds (outs k) = true) ∧
    (∀ k0, k0 < maxRetries → attemptSucceeds (outs k0) = true →
      (∀ j, j < k0 → attemptSucceeds (outs j) = false) →
      write_tag_from_file outs maxRetries = ⟨true, k0 + 1, 5 * k0⟩) ∧
    ((∀ j, j < maxRetries → attemptSucceeds (outs j) = false) →
      write_tag_from_file outs maxRetries
        = ⟨false, maxRetries, 5 * (maxRetries - 1)⟩) := by
  have hsucc : ∀ k0, k0 < maxRetries → attemptSucceeds (outs k0) = true →
      (∀ j, j < k0 → attemptSucceeds (outs j) = false) →
      write_tag_from_file outs maxRetries = ⟨true, k0 + 1, 5 * k0⟩ := by
    intro k0 hk hs hmin
    rw [write_tag_from_file,
      write_retry_loop_success outs k0 hs hmin maxRetries 0 0 (by omega) (by omega)]
    congr 1
    omega
  have hfail : (∀ j, j < maxRetries → attemptSucceeds (outs j) = false) →
      write_tag_from_file outs maxRetries
        = ⟨false, maxRetries, 5 * (maxRetries - 1)⟩ := by
    intro h
    rw [write_tag_from_file,
      write_retry_loop_bounded_fail outs maxRetries h maxRetries 0 0 (by omega)]
    congr 1 <;> omega
  refine ⟨?_, hsucc, hfail⟩
  constructor
  · intro hs
    by_contra hnone
    push_neg at hnone
    have hall : ∀ j, j < maxRetries → attemptSucceeds (outs j) = false := by
      intro j hj
      cases h2 : attemptSucceeds (outs j)
      · rfl
      · exact absurd h2 (hnone j hj)
    rw [hfail hall] at hs
    simp at hs
  · rintro ⟨k, hk, hsk⟩
    have hex : ∃ n, attemptSucceeds (outs n) = true := ⟨k, hsk⟩
    have hs0 : attemptSucceeds (outs (Nat.find hex)) = true := Nat.find_spec hex
    have hmin : ∀ j, j < Nat.find hex → attemptSucceeds (outs j) = false := by
      intro j hj
      have hne := Nat.find_min hex hj
      cases h2 : attemptSucceeds (outs j)
      · rfl
      · exact absurd h2 hne
    have hk0le : Nat.find hex ≤ k := Nat.find_min' hex hsk
    rw [hsucc (Nat.find hex) (by omega) hs0 hmin]

/-- C1 witness: the attempt sequence failing once then succeeding on the
second attempt, within the default three retries. -/
theorem C1_write_retries_witness :
    write_tag_from_file
      (fun k => if k = 1 then "Done: 63 of 64 blocks written" else "write failed")
      defaultMaxRetries = ⟨true, 2, 5⟩ :=
  (C1_write_retries
    (fun k => if k = 1 then "Done: 63 of 64 blocks written" else "write failed")
    defaultMaxRetries).2.1 1 (by decide) (by decide) (by decide)

end NFC
